import Mathlib

/-!
Verification of the rhxd TRTP protocol engine against its specification.

This file shallowly embeds the Rust sources of the rhxd repository:
bytes are `Nat` values below 256, byte buffers are `List Nat`, machine
integers are `Nat` (or `Int` for signed values) reduced modulo the
appropriate power of two exactly where the Rust code truncates.

The embedded modules are
  crates/rhxcore/src/types/access.rs        (access-mask wire codec)
  crates/rhxcore/src/password.rs            (XOR obfuscation)
  crates/rhxcore/src/protocol/field.rs      (field ids, field data)
  crates/rhxcore/src/protocol/types.rs      (transaction types, error codes)
  crates/rhxcore/src/protocol/transaction.rs(header layout)
  crates/rhxcore/src/codec/field_codec.rs   (field encode/decode)
  crates/rhxcore/src/codec/transaction_codec.rs (framing)
  crates/rhxd/src/connection/session.rs     (session state)
  crates/rhxd/src/connection/transaction_helpers.rs
  crates/rhxd/src/connection/handler.rs     (connection loop, dispatch)
  crates/rhxd/src/handlers/*.rs             (transaction handlers)
-/

namespace Rhxd

/-- Little-endian and big-endian byte order helpers over `Nat`.
`byteOf m i` is byte `i` of the little-endian representation of the
64-bit value `m`, exactly as `u64::to_le_bytes` produces it. -/
def byteOf (m i : Nat) : Nat := m / 2 ^ (8 * i) % 2 ^ 8

/-- Reverse the bits inside one byte, as Rust `u8::reverse_bits`. -/
def rev8 (b : Nat) : Nat :=
  b % 2 * 128 + b / 2 % 2 * 64 + b / 4 % 2 * 32 + b / 8 % 2 * 16 +
    b / 16 % 2 * 8 + b / 32 % 2 * 4 + b / 64 % 2 * 2 + b / 128 % 2

/-- The declared privilege constants of `bitflags! AccessPrivileges`
in `types/access.rs`, in source order: every declared constant is a
single bit `1 <<< n`. -/
def accessConsts : List Nat :=
  [1 <<< 0, 1 <<< 1, 1 <<< 2, 1 <<< 3, 1 <<< 4, 1 <<< 5, 1 <<< 6, 1 <<< 7, 1 <<< 8,
   1 <<< 9, 1 <<< 10, 1 <<< 11, 1 <<< 12,
   1 <<< 13,
   1 <<< 14, 1 <<< 15, 1 <<< 16, 1 <<< 17, 1 <<< 18, 1 <<< 19,
   1 <<< 20, 1 <<< 21, 1 <<< 33, 1 <<< 34, 1 <<< 35, 1 <<< 36, 1 <<< 37,
   1 <<< 22, 1 <<< 23, 1 <<< 24,
   1 <<< 25, 1 <<< 26, 1 <<< 27, 1 <<< 28, 1 <<< 29, 1 <<< 30, 1 <<< 31,
   1 <<< 32, 1 <<< 38, 1 <<< 39, 1 <<< 40,
   1 <<< 41, 1 <<< 42, 1 <<< 43, 1 <<< 44, 1 <<< 45, 1 <<< 46, 1 <<< 47,
   1 <<< 48, 1 <<< 49]

/-- `AccessPrivileges::all()`: the union of every declared constant. -/
def allMask : Nat := accessConsts.foldr (fun a b => a ||| b) 0

/-- `AccessPrivileges::from_bits_truncate`: keep only declared bits. -/
def fromBitsTruncate (m : Nat) : Nat := m &&& allMask

/-- `AccessPrivileges::to_wire_format` on a little-endian host:
emit the little-endian bytes of the mask, then reverse the bits of
each byte (access.rs lines 141-150). -/
def toWireFormatLE (m : Nat) : List Nat :=
  [rev8 (byteOf m 0), rev8 (byteOf m 1), rev8 (byteOf m 2), rev8 (byteOf m 3),
   rev8 (byteOf m 4), rev8 (byteOf m 5), rev8 (byteOf m 6), rev8 (byteOf m 7)]

/-- `AccessPrivileges::to_wire_format` on a big-endian host: plain
big-endian bytes, no reversal (access.rs lines 151-156). -/
def toWireFormatBE (m : Nat) : List Nat :=
  [byteOf m 7, byteOf m 6, byteOf m 5, byteOf m 4,
   byteOf m 3, byteOf m 2, byteOf m 1, byteOf m 0]

/-- `u64::from_le_bytes` on an 8-byte buffer. -/
def u64FromLeBytes (bs : List Nat) : Nat :=
  bs.getD 0 0 + bs.getD 1 0 * 2 ^ 8 + bs.getD 2 0 * 2 ^ 16 + bs.getD 3 0 * 2 ^ 24 +
    bs.getD 4 0 * 2 ^ 32 + bs.getD 5 0 * 2 ^ 40 + bs.getD 6 0 * 2 ^ 48 +
    bs.getD 7 0 * 2 ^ 56

/-- `u64::from_be_bytes` on an 8-byte buffer. -/
def u64FromBeBytes (bs : List Nat) : Nat :=
  bs.getD 7 0 + bs.getD 6 0 * 2 ^ 8 + bs.getD 5 0 * 2 ^ 16 + bs.getD 4 0 * 2 ^ 24 +
    bs.getD 3 0 * 2 ^ 32 + bs.getD 2 0 * 2 ^ 40 + bs.getD 1 0 * 2 ^ 48 +
    bs.getD 0 0 * 2 ^ 56

/-- `AccessPrivileges::from_wire_format` on a little-endian host:
reverse the bits of each byte, read as little-endian, and truncate to
the declared bits (access.rs lines 162-171). -/
def fromWireFormatLE (bs : List Nat) : Nat :=
  fromBitsTruncate (u64FromLeBytes (bs.map rev8))

/-- `AccessPrivileges::from_wire_format` on a big-endian host
(access.rs lines 172-177). -/
def fromWireFormatBE (bs : List Nat) : Nat :=
  fromBitsTruncate (u64FromBeBytes bs)

theorem allMask_eq : allMask = 2 ^ 50 - 1 := by decide

theorem rev8_lt (b : Nat) : rev8 b < 256 := by
  unfold rev8
  have h0 : b % 2 < 2 := Nat.mod_lt _ (by omega)
  have h1 : b / 2 % 2 < 2 := Nat.mod_lt _ (by omega)
  have h2 : b / 4 % 2 < 2 := Nat.mod_lt _ (by omega)
  have h3 : b / 8 % 2 < 2 := Nat.mod_lt _ (by omega)
  have h4 : b / 16 % 2 < 2 := Nat.mod_lt _ (by omega)
  have h5 : b / 32 % 2 < 2 := Nat.mod_lt _ (by omega)
  have h6 : b / 64 % 2 < 2 := Nat.mod_lt _ (by omega)
  have h7 : b / 128 % 2 < 2 := Nat.mod_lt _ (by omega)
  omega

set_option maxRecDepth 4000 in
theorem rev8_rev8 : ∀ b < 256, rev8 (rev8 b) = b := by decide

theorem byteOf_lt (m i : Nat) : byteOf m i < 256 :=
  Nat.mod_lt _ (by norm_num)

theorem u64_le_recompose (m : Nat) (h : m < 2 ^ 64) :
    byteOf m 0 + byteOf m 1 * 2 ^ 8 + byteOf m 2 * 2 ^ 16 + byteOf m 3 * 2 ^ 24 +
      byteOf m 4 * 2 ^ 32 + byteOf m 5 * 2 ^ 40 + byteOf m 6 * 2 ^ 48 +
      byteOf m 7 * 2 ^ 56 = m := by
  unfold byteOf
  omega

/-- C1 counterexample helper: the round trip erases undefined bits. -/
theorem fromWire_toWire_le_eq (m : Nat) (h64 : m < 2 ^ 64) :
    fromWireFormatLE (toWireFormatLE m) = fromBitsTruncate m := by
  unfold fromWireFormatLE toWireFormatLE
  simp only [List.map_cons, List.map_nil]
  rw [show ([rev8 (rev8 (byteOf m 0)), rev8 (rev8 (byteOf m 1)), rev8 (rev8 (byteOf m 2)),
      rev8 (rev8 (byteOf m 3)), rev8 (rev8 (byteOf m 4)), rev8 (rev8 (byteOf m 5)),
      rev8 (rev8 (byteOf m 6)), rev8 (rev8 (byteOf m 7))] : List Nat) =
      [byteOf m 0, byteOf m 1, byteOf m 2, byteOf m 3,
       byteOf m 4, byteOf m 5, byteOf m 6, byteOf m 7] from by
    simp only [rev8_rev8 _ (byteOf_lt m _)]]
  unfold u64FromLeBytes
  simp only [List.getD_cons_zero, List.getD_cons_succ]
  rw [u64_le_recompose m h64]

theorem fromWire_toWire_be_eq (m : Nat) (h64 : m < 2 ^ 64) :
    fromWireFormatBE (toWireFormatBE m) = fromBitsTruncate m := by
  unfold fromWireFormatBE toWireFormatBE u64FromBeBytes
  simp only [List.getD_cons_zero, List.getD_cons_succ]
  rw [u64_le_recompose m h64]

/-- C1: the claim quantifies over every 64-bit mask, but
`from_bits_truncate` in `from_wire_format` erases the undefined bits
50-63: the mask consisting of bit 50 alone does not round-trip, on
either endianness. -/
theorem access_roundtrip_counterexample :
    fromWireFormatLE (toWireFormatLE (2 ^ 50)) = 0 ∧
      fromWireFormatBE (toWireFormatBE (2 ^ 50)) = 0 ∧ (2 : Nat) ^ 50 ≠ 0 := by
  refine ⟨?_, ?_, by norm_num⟩ <;> decide

/-- C1 (amended): for every mask confined to the 50 declared privilege
bits (bits 0-49), `from_wire_format (to_wire_format m) = m` holds on
both little-endian and big-endian builds. -/
theorem access_roundtrip_defined_bits (m : Nat) (h64 : m < 2 ^ 64)
    (hdef : m &&& allMask = m) :
    fromWireFormatLE (toWireFormatLE m) = m ∧
      fromWireFormatBE (toWireFormatBE m) = m := by
  rw [fromWire_toWire_le_eq m h64, fromWire_toWire_be_eq m h64]
  exact ⟨hdef, hdef⟩

/-- C1 witness: the round trip at the all-privileges mask. -/
theorem access_roundtrip_defined_bits_witness :
    (2 ^ 50 - 1 : Nat) < 2 ^ 64 ∧ ((2 ^ 50 - 1 : Nat) &&& allMask = 2 ^ 50 - 1) ∧
      (fromWireFormatLE (toWireFormatLE (2 ^ 50 - 1)) = 2 ^ 50 - 1 ∧
        fromWireFormatBE (toWireFormatBE (2 ^ 50 - 1)) = 2 ^ 50 - 1) :=
  ⟨by norm_num, by decide,
    access_roundtrip_defined_bits (2 ^ 50 - 1) (by norm_num) (by decide)⟩

/-- Big-endian 2-byte encoding, as `BufMut::put_u16`; a wider input
wraps exactly like an `as u16` cast followed by `put_u16`. -/
def putU16 (n : Nat) : List Nat := [n / 2 ^ 8 % 2 ^ 8, n % 2 ^ 8]

/-- Big-endian 4-byte encoding, as `BufMut::put_u32`. -/
def putU32 (n : Nat) : List Nat :=
  [n / 2 ^ 24 % 2 ^ 8, n / 2 ^ 16 % 2 ^ 8, n / 2 ^ 8 % 2 ^ 8, n % 2 ^ 8]

/-- Big-endian 2-byte read, as `Buf::get_u16`. -/
def getU16 (a b : Nat) : Nat := a * 2 ^ 8 + b

/-- Big-endian 4-byte read, as `Buf::get_u32`. -/
def getU32 (a b c d : Nat) : Nat := a * 2 ^ 24 + b * 2 ^ 16 + c * 2 ^ 8 + d

/-- Two-byte big-endian two's complement write, as `BufMut::put_i16`. -/
def putI16 (v : Int) : List Nat := putU16 (v % 2 ^ 16).toNat

/-- Four-byte big-endian two's complement write, as `BufMut::put_i32`. -/
def putI32 (v : Int) : List Nat := putU32 (v % 2 ^ 32).toNat

/-- Sign extension of a 16-bit value, as `Buf::get_i16` followed by the
Rust `as i32` cast in the field codec. -/
def sext16 (n : Nat) : Int := if n < 2 ^ 15 then (n : Int) else (n : Int) - 2 ^ 16

/-- Signed interpretation of a 32-bit value, as `Buf::get_i32`. -/
def sext32 (n : Nat) : Int := if n < 2 ^ 31 then (n : Int) else (n : Int) - 2 ^ 32

/-- `xor_password` from password.rs: byte-wise bitwise NOT. -/
def xorPassword (data : List Nat) : List Nat := data.map (fun b => 255 - b % 256)

/-- `verify_password` from password.rs: the stored scrambled bytes must
equal the scramble of the provided plaintext. -/
def verifyPassword (storedScrambled provided : List Nat) : Bool :=
  storedScrambled == xorPassword provided

/-- Value of one ASCII hex digit, as the `hex` crate accepts it. -/
def hexVal (c : Nat) : Option Nat :=
  if 48 ≤ c ∧ c ≤ 57 then some (c - 48)
  else if 97 ≤ c ∧ c ≤ 102 then some (c - 87)
  else if 65 ≤ c ∧ c ≤ 70 then some (c - 55)
  else none

/-- `hex::decode`: an even-length ASCII hex string decodes to bytes;
anything else fails. -/
def hexDecode : List Nat → Option (List Nat)
  | [] => some []
  | [_] => none
  | a :: b :: rest =>
    match hexVal a, hexVal b, hexDecode rest with
    | some ha, some hb, some tl => some ((ha * 16 + hb) :: tl)
    | _, _, _ => none

/-- Continuation byte test for UTF-8 validation. -/
def utf8Cont (b : Nat) : Bool := 128 ≤ b && b ≤ 191

/-- UTF-8 validity of a byte sequence, the success condition of
`String::from_utf8` in the field codec. -/
def utf8OK : List Nat → Bool
  | [] => true
  | a :: l =>
    if a ≤ 127 then utf8OK l
    else if 194 ≤ a && a ≤ 223 then
      match l with
      | b :: l2 => utf8Cont b && utf8OK l2
      | [] => false
    else if a = 224 then
      match l with
      | b :: c :: l3 => (160 ≤ b && b ≤ 191) && utf8Cont c && utf8OK l3
      | _ => false
    else if 225 ≤ a && a ≤ 236 then
      match l with
      | b :: c :: l3 => utf8Cont b && utf8Cont c && utf8OK l3
      | _ => false
    else if a = 237 then
      match l with
      | b :: c :: l3 => (128 ≤ b && b ≤ 159) && utf8Cont c && utf8OK l3
      | _ => false
    else if 238 ≤ a && a ≤ 239 then
      match l with
      | b :: c :: l3 => utf8Cont b && utf8Cont c && utf8OK l3
      | _ => false
    else if a = 240 then
      match l with
      | b :: c :: d :: l4 => (144 ≤ b && b ≤ 191) && utf8Cont c && utf8Cont d && utf8OK l4
      | _ => false
    else if 241 ≤ a && a ≤ 243 then
      match l with
      | b :: c :: d :: l4 => utf8Cont b && utf8Cont c && utf8Cont d && utf8OK l4
      | _ => false
    else if a = 244 then
      match l with
      | b :: c :: d :: l4 => (128 ≤ b && b ≤ 143) && utf8Cont c && utf8Cont d && utf8OK l4
      | _ => false
    else false

/-- Field identifiers, protocol/field.rs `enum FieldId`. -/
inductive FieldId where
  | data | userName | userId | userIconId | userLogin | userPassword
  | referenceNumber | transferSize | chatOptions
  | userAccess | userAlias | userFlags | options | chatId | chatSubject
  | waitingCount
  | fileName | filePath | fileResumeData | fileTransferOptions
  | fileTypeString | fileCreatorString | fileSize | fileCreateDate
  | fileModifyDate | fileComment | fileNewName | fileNewPath | fileType
  | quotingMsg | automaticResponse
  | serverAgreement | serverBanner | serverBannerType | serverBannerUrl
  | noServerAgreement
  | version | bannerId | serverName
  | fileNameWithInfo | userNameWithInfo
  | newsArticleId | newsArticleDataFlavor | newsArticleTitle
  | newsArticlePoster | newsArticleDate | newsArticlePrevArt
  | newsArticleNextArt | newsArticleData | newsArticleFlags
  | newsArticleParentArt | newsArticle1stChildArt
  | newsCategoryGuid | newsCategoryListData | newsCategoryName | newsPath
  | sessionKey | macAlg | serverCipherAlg | clientCipherAlg
  deriving DecidableEq

/-- `FieldId::to_u16`, the `repr(u16)` discriminants of field.rs. -/
def FieldId.toU16 : FieldId → Nat
  | .data => 101 | .userName => 102 | .userId => 103 | .userIconId => 104
  | .userLogin => 105 | .userPassword => 106 | .referenceNumber => 107
  | .transferSize => 108 | .chatOptions => 109
  | .userAccess => 110 | .userAlias => 111 | .userFlags => 112
  | .options => 113 | .chatId => 114 | .chatSubject => 115
  | .waitingCount => 116
  | .fileName => 201 | .filePath => 202 | .fileResumeData => 203
  | .fileTransferOptions => 204 | .fileTypeString => 205
  | .fileCreatorString => 206 | .fileSize => 207 | .fileCreateDate => 208
  | .fileModifyDate => 209 | .fileComment => 210 | .fileNewName => 211
  | .fileNewPath => 212 | .fileType => 213
  | .quotingMsg => 214 | .automaticResponse => 215
  | .serverAgreement => 151 | .serverBanner => 152
  | .serverBannerType => 153 | .serverBannerUrl => 154
  | .noServerAgreement => 155
  | .version => 160 | .bannerId => 161 | .serverName => 162
  | .fileNameWithInfo => 200 | .userNameWithInfo => 300
  | .newsArticleId => 320 | .newsArticleDataFlavor => 321
  | .newsArticleTitle => 322 | .newsArticlePoster => 323
  | .newsArticleDate => 324 | .newsArticlePrevArt => 325
  | .newsArticleNextArt => 326 | .newsArticleData => 327
  | .newsArticleFlags => 328 | .newsArticleParentArt => 329
  | .newsArticle1stChildArt => 330
  | .newsCategoryGuid => 331 | .newsCategoryListData => 332
  | .newsCategoryName => 333 | .newsPath => 335
  | .sessionKey => 3587 | .macAlg => 3588 | .serverCipherAlg => 3771
  | .clientCipherAlg => 3772

/-- `FieldId::from_u16`: the partial inverse, field.rs lines 91-155. -/
def FieldId.fromU16 (value : Nat) : Option FieldId :=
  match value with
  | 101 => some .data | 102 => some .userName | 103 => some .userId
  | 104 => some .userIconId | 105 => some .userLogin
  | 106 => some .userPassword | 107 => some .referenceNumber
  | 108 => some .transferSize | 109 => some .chatOptions
  | 110 => some .userAccess | 111 => some .userAlias
  | 112 => some .userFlags | 113 => some .options | 114 => some .chatId
  | 115 => some .chatSubject | 116 => some .waitingCount
  | 151 => some .serverAgreement | 152 => some .serverBanner
  | 153 => some .serverBannerType | 154 => some .serverBannerUrl
  | 155 => some .noServerAgreement
  | 160 => some .version | 161 => some .bannerId | 162 => some .serverName
  | 200 => some .fileNameWithInfo
  | 201 => some .fileName | 202 => some .filePath
  | 203 => some .fileResumeData | 204 => some .fileTransferOptions
  | 205 => some .fileTypeString | 206 => some .fileCreatorString
  | 207 => some .fileSize | 208 => some .fileCreateDate
  | 209 => some .fileModifyDate | 210 => some .fileComment
  | 211 => some .fileNewName | 212 => some .fileNewPath
  | 213 => some .fileType | 214 => some .quotingMsg
  | 215 => some .automaticResponse
  | 300 => some .userNameWithInfo
  | 320 => some .newsArticleId | 321 => some .newsArticleDataFlavor
  | 322 => some .newsArticleTitle | 323 => some .newsArticlePoster
  | 324 => some .newsArticleDate | 325 => some .newsArticlePrevArt
  | 326 => some .newsArticleNextArt | 327 => some .newsArticleData
  | 328 => some .newsArticleFlags | 329 => some .newsArticleParentArt
  | 330 => some .newsArticle1stChildArt
  | 331 => some .newsCategoryGuid | 332 => some .newsCategoryListData
  | 333 => some .newsCategoryName | 335 => some .newsPath
  | 3587 => some .sessionKey | 3588 => some .macAlg
  | 3771 => some .serverCipherAlg | 3772 => some .clientCipherAlg
  | _ => none

theorem fieldId_fromU16_toU16 (fid : FieldId) : FieldId.fromU16 fid.toU16 = some fid := by
  cases fid <;> rfl

/-- Transaction types, protocol/types.rs `enum TransactionType`. -/
inductive TransactionType where
  | error
  | getMessages | newMessage | oldPostNews | serverMessage
  | sendChat | chatMessage
  | login | sendInstantMsg | showAgreement | disconnectUser | disconnectMsg
  | inviteNewChat | inviteToChat | rejectChatInvite | joinChat | leaveChat
  | notifyChatChangeUser | notifyChatDeleteUser | notifyChatSubject
  | setChatSubject
  | agreed | serverBanner
  | getFileNameList | downloadFile | uploadFile | deleteFile | newFolder
  | getFileInfo | setFileInfo | moveFile | makeFileAlias | downloadFolder
  | downloadInfo | downloadBanner | uploadFolder
  | getUserNameList | notifyChangeUser | notifyDeleteUser
  | getClientInfoText | setClientUserInfo
  | newUser | deleteUser | getUser | setUser | userAccess | userBroadcast
  | getNewsCategoryNameList | getNewsArticleNameList | deleteNewsItem
  | newNewsFolder | newNewsCategory | getNewsArticleData | postNewsArticle
  | deleteNewsArticle
  | keepConnectionAlive
  deriving DecidableEq

/-- `TransactionType::to_u16`, the `repr(u16)` discriminants. -/
def TransactionType.toU16 : TransactionType → Nat
  | .error => 100
  | .getMessages => 101 | .newMessage => 102 | .oldPostNews => 103
  | .serverMessage => 104
  | .sendChat => 105 | .chatMessage => 106
  | .login => 107 | .sendInstantMsg => 108 | .showAgreement => 109
  | .disconnectUser => 110 | .disconnectMsg => 111
  | .inviteNewChat => 112 | .inviteToChat => 113 | .rejectChatInvite => 114
  | .joinChat => 115 | .leaveChat => 116
  | .notifyChatChangeUser => 117 | .notifyChatDeleteUser => 118
  | .notifyChatSubject => 119 | .setChatSubject => 120
  | .agreed => 121 | .serverBanner => 122
  | .getFileNameList => 200 | .downloadFile => 202 | .uploadFile => 203
  | .deleteFile => 204 | .newFolder => 205 | .getFileInfo => 206
  | .setFileInfo => 207 | .moveFile => 208 | .makeFileAlias => 209
  | .downloadFolder => 210 | .downloadInfo => 211 | .downloadBanner => 212
  | .uploadFolder => 213
  | .getUserNameList => 300 | .notifyChangeUser => 301
  | .notifyDeleteUser => 302 | .getClientInfoText => 303
  | .setClientUserInfo => 304
  | .newUser => 350 | .deleteUser => 351 | .getUser => 352 | .setUser => 353
  | .userAccess => 354 | .userBroadcast => 355
  | .getNewsCategoryNameList => 370 | .getNewsArticleNameList => 371
  | .deleteNewsItem => 380 | .newNewsFolder => 381 | .newNewsCategory => 382
  | .getNewsArticleData => 400 | .postNewsArticle => 410
  | .deleteNewsArticle => 411
  | .keepConnectionAlive => 500

/-- `TransactionType::from_u16`, types.rs lines 88-148. -/
def TransactionType.fromU16 (value : Nat) : Option TransactionType :=
  match value with
  | 100 => some .error
  | 101 => some .getMessages | 102 => some .newMessage
  | 103 => some .oldPostNews | 104 => some .serverMessage
  | 105 => some .sendChat | 106 => some .chatMessage
  | 107 => some .login | 108 => some .sendInstantMsg
  | 109 => some .showAgreement | 110 => some .disconnectUser
  | 111 => some .disconnectMsg
  | 112 => some .inviteNewChat | 113 => some .inviteToChat
  | 114 => some .rejectChatInvite | 115 => some .joinChat
  | 116 => some .leaveChat | 117 => some .notifyChatChangeUser
  | 118 => some .notifyChatDeleteUser | 119 => some .notifyChatSubject
  | 120 => some .setChatSubject
  | 121 => some .agreed | 122 => some .serverBanner
  | 200 => some .getFileNameList | 202 => some .downloadFile
  | 203 => some .uploadFile | 204 => some .deleteFile
  | 205 => some .newFolder | 206 => some .getFileInfo
  | 207 => some .setFileInfo | 208 => some .moveFile
  | 209 => some .makeFileAlias | 210 => some .downloadFolder
  | 211 => some .downloadInfo | 212 => some .downloadBanner
  | 213 => some .uploadFolder
  | 300 => some .getUserNameList | 301 => some .notifyChangeUser
  | 302 => some .notifyDeleteUser | 303 => some .getClientInfoText
  | 304 => some .setClientUserInfo
  | 350 => some .newUser | 351 => some .deleteUser | 352 => some .getUser
  | 353 => some .setUser | 354 => some .userAccess
  | 355 => some .userBroadcast
  | 370 => some .getNewsCategoryNameList
  | 371 => some .getNewsArticleNameList | 380 => some .deleteNewsItem
  | 381 => some .newNewsFolder | 382 => some .newNewsCategory
  | 400 => some .getNewsArticleData | 410 => some .postNewsArticle
  | 411 => some .deleteNewsArticle
  | 500 => some .keepConnectionAlive
  | _ => none

theorem txType_fromU16_toU16 (ty : TransactionType) :
    TransactionType.fromU16 ty.toU16 = some ty := by
  cases ty <;> rfl

/-- Error codes, protocol/types.rs `enum ErrorCode`. -/
inductive ErrorCode where
  | noError | unknownError | permissionDenied | notFound | alreadyExists
  | invalidParameter
  deriving DecidableEq

/-- `ErrorCode::to_u32`. -/
def ErrorCode.toU32 : ErrorCode → Nat
  | .noError => 0 | .unknownError => 1 | .permissionDenied => 2
  | .notFound => 3 | .alreadyExists => 4 | .invalidParameter => 5

/-- Field payload, protocol/field.rs `enum FieldData`. A Rust `String`
value is represented by its UTF-8 byte sequence; the `str` constructor
therefore carries bytes for which `utf8OK` holds in any value built by
the Rust code. -/
inductive FieldData where
  | integer (v : Int)
  | str (bytes : List Nat)
  | binary (bytes : List Nat)
  deriving DecidableEq

/-- A transaction field, protocol/field.rs `struct Field`. -/
structure Field where
  id : FieldId
  data : FieldData
  deriving DecidableEq

/-- Codec failures, error.rs `enum ProtocolError` (the variants the
embedded code paths can produce). -/
inductive ProtocolError where
  | invalidTransactionType (code : Nat)
  | invalidFieldId (code : Nat)
  | transactionTooLarge (size maxAllowed : Nat)
  | invalidFieldData
  deriving DecidableEq

/-- The field ids the decoder treats as integers, the first match arm
of field_codec.rs lines 42-50. -/
def isIntegerFieldId : FieldId → Bool
  | .userId | .userIconId | .chatId | .chatOptions | .options
  | .userFlags | .version | .referenceNumber | .waitingCount => true
  | _ => false

/-- The field ids the decoder tries to read as UTF-8 strings,
field_codec.rs lines 72-76. -/
def isStringFieldId : FieldId → Bool
  | .userName | .serverName | .chatSubject | .fileName | .fileComment => true
  | _ => false

/-- Interpretation of one field payload by id, the `match field_id`
of field_codec.rs lines 41-88. The arms of the Rust match are disjoint,
so they are rendered as a chain of disjoint tests. -/
def decodeFieldData (fid : FieldId) (d : List Nat) : FieldData :=
  if isIntegerFieldId fid then
    if d.length = 2 then .integer (sext16 (getU16 (d.getD 0 0) (d.getD 1 0)))
    else if d.length = 4 then
      .integer (sext32 (getU32 (d.getD 0 0) (d.getD 1 0) (d.getD 2 0) (d.getD 3 0)))
    else .binary d
  else if fid = .userAccess then .binary d
  else if isStringFieldId fid then
    if utf8OK d then .str d else .binary d
  else .binary d

/-- The loop body of `decode_fields` (field_codec.rs lines 21-91),
recursing on the declared field count. The four sequential header
reads (`FieldHeader::from_bytes` then `advance`) are rendered as a
pattern on the first four bytes; fewer than four bytes is the
`buf.len() < FieldHeader::SIZE` failure. -/
def decodeFieldsLoop : Nat → List Nat → Except ProtocolError (List Field)
  | 0, _ => .ok []
  | _ + 1, [] => .error .invalidFieldData
  | _ + 1, [_] => .error .invalidFieldData
  | _ + 1, [_, _] => .error .invalidFieldData
  | _ + 1, [_, _, _] => .error .invalidFieldData
  | n + 1, i1 :: i2 :: s1 :: s2 :: rest =>
    if rest.length < getU16 s1 s2 then .error .invalidFieldData
    else
      match FieldId.fromU16 (getU16 i1 i2) with
      | none => .error (.invalidFieldId (getU16 i1 i2))
      | some fid =>
        match decodeFieldsLoop n (rest.drop (getU16 s1 s2)) with
        | .error e => .error e
        | .ok fs => .ok (⟨fid, decodeFieldData fid (rest.take (getU16 s1 s2))⟩ :: fs)

/-- `decode_fields` from field_codec.rs lines 8-94: an empty buffer is
an empty field list, a single byte cannot hold the 16-bit count, and
otherwise the count is followed by that many id/size/payload triples. -/
def decodeFields : List Nat → Except ProtocolError (List Field)
  | [] => .ok []
  | [_] => .error .invalidFieldData
  | c1 :: c2 :: rest => decodeFieldsLoop (getU16 c1 c2) rest

/-- Payload serialization of one field value, the `match field.data`
of `encode_fields` (field_codec.rs lines 105-120): an integer uses two
bytes when it fits in an i16, otherwise four. -/
def encodeFieldData : FieldData → List Nat
  | .integer v => if -(2 ^ 15) ≤ v ∧ v ≤ 2 ^ 15 - 1 then putI16 v else putI32 v
  | .str s => s
  | .binary b => b

/-- One field as emitted by `encode_fields`: id, size (the payload
length as u16), payload. -/
def encodeField (f : Field) : List Nat :=
  putU16 f.id.toU16 ++ putU16 (encodeFieldData f.data).length ++ encodeFieldData f.data

/-- `encode_fields` from field_codec.rs lines 97-134: 16-bit count then
each field in order. -/
def encodeFields (fields : List Field) : List Nat :=
  putU16 fields.length ++ (fields.map encodeField).flatten

/-- A transaction, protocol/transaction.rs `struct Transaction`. -/
structure Transaction where
  flags : Nat
  isReply : Bool
  ty : TransactionType
  id : Nat
  errorCode : Nat
  totalSize : Nat
  dataSize : Nat
  fields : List Field
  deriving DecidableEq

/-- The 20-byte header as parsed by `TransactionHeader::from_bytes`. -/
structure TransactionHeader where
  flags : Nat
  isReplyByte : Nat
  tyCode : Nat
  id : Nat
  errorCode : Nat
  totalSize : Nat
  dataSize : Nat
  deriving DecidableEq

/-- Parse the first 20 bytes of a buffer as a transaction header,
`TransactionHeader::from_bytes`: sequential big-endian reads off the
front of the buffer. The fallback arm is unreachable from `decode`,
which only parses after checking that 20 bytes are available. -/
def parseHeader : List Nat → TransactionHeader
  | f :: r :: t1 :: t2 :: i1 :: i2 :: i3 :: i4 :: e1 :: e2 :: e3 :: e4 ::
      z1 :: z2 :: z3 :: z4 :: d1 :: d2 :: d3 :: d4 :: _ =>
    { flags := f
      isReplyByte := r
      tyCode := getU16 t1 t2
      id := getU32 i1 i2 i3 i4
      errorCode := getU32 e1 e2 e3 e4
      totalSize := getU32 z1 z2 z3 z4
      dataSize := getU32 d1 d2 d3 d4 }
  | _ => ⟨0, 0, 0, 0, 0, 0, 0⟩

/-- `MAX_TRANSACTION_SIZE` from protocol/constants.rs. -/
def maxTransactionSize : Nat := 32768

/-- Result of one `TransactionCodec::decode` call. `needMore n` is the
`Ok(None)` outcome, recording that the codec asked the buffer to
reserve `n` further bytes before returning; `frame t rest` is
`Ok(Some(t))` with `rest` the bytes left unconsumed in the buffer. -/
inductive DecodeResult where
  | needMore (reserve : Nat)
  | protoError (e : ProtocolError)
  | frame (t : Transaction) (rest : List Nat)
  deriving DecidableEq

/-- `TransactionCodec::decode` (transaction_codec.rs lines 38-88) with
the codec's `max_size` made explicit (`TransactionCodec::new` sets it
to `maxTransactionSize`). The source order is kept: header-length
check, header parse, full-frame availability check (reserving space
for the missing bytes), max-size check, type lookup, field decode. -/
def decodeTx (maxSize : Nat) (src : List Nat) : DecodeResult :=
  if src.length < 20 then .needMore 0
  else if src.length < 20 + (parseHeader src).dataSize then
    .needMore (20 + (parseHeader src).dataSize - src.length)
  else if (parseHeader src).dataSize > maxSize then
    .protoError (.transactionTooLarge (parseHeader src).dataSize maxSize)
  else
    match TransactionType.fromU16 (parseHeader src).tyCode with
    | none => .protoError (.invalidTransactionType (parseHeader src).tyCode)
    | some ty =>
      match (if (parseHeader src).dataSize > 0 then
               decodeFields ((src.drop 20).take (parseHeader src).dataSize)
             else .ok []) with
      | .error e => .protoError e
      | .ok fs =>
        .frame
          { flags := (parseHeader src).flags
            isReply := (parseHeader src).isReplyByte != 0
            ty := ty
            id := (parseHeader src).id
            errorCode := (parseHeader src).errorCode
            totalSize := (parseHeader src).totalSize
            dataSize := (parseHeader src).dataSize
            fields := fs }
          ((src.drop 20).drop (parseHeader src).dataSize)

/-- `TransactionCodec::decode` with the default maximum size. -/
def decodeTransaction (src : List Nat) : DecodeResult := decodeTx maxTransactionSize src

/-- `TransactionCodec::encode` (transaction_codec.rs lines 94-120):
serialize the fields, then emit the header with `total_size` and
`data_size` both set to the field-buffer length, then the fields. -/
def encodeTransaction (t : Transaction) : List Nat :=
  let fieldsBuf := encodeFields t.fields
  let dataSize := fieldsBuf.length % 2 ^ 32
  [t.flags, if t.isReply then 1 else 0] ++ putU16 t.ty.toU16 ++ putU32 t.id ++
    putU32 t.errorCode ++ putU32 dataSize ++ putU32 dataSize ++ fieldsBuf

/-- Authentication state, connection/session.rs `enum AuthState`. -/
inductive AuthState where
  | handshake
  | loginPending
  | authenticated
  deriving DecidableEq

/-- A connected client session, connection/session.rs `struct Session`.
Strings are carried as their UTF-8 bytes; the peer address and the two
timestamps are carried as opaque numbers. -/
structure Session where
  userId : Nat
  accountId : Option Int
  nickname : List Nat
  iconId : Nat
  flags : Nat
  options : Nat
  address : Nat
  connectedAt : Nat
  lastActivity : Nat
  authState : AuthState
  deriving DecidableEq

/-- Decimal ASCII rendering of a number, for the `format!` calls. -/
def natDecimalBytes (n : Nat) : List Nat := (Nat.toDigits 10 n).map Char.toNat

/-- The default nickname `format!("Guest {}", user_id)`. -/
def guestNickname (userId : Nat) : List Nat :=
  [71, 117, 101, 115, 116, 32] ++ natDecimalBytes userId

/-- `Session::new`: fresh session in handshake state. -/
def Session.new (userId : Nat) (address now : Nat) : Session where
  userId := userId
  accountId := none
  nickname := guestNickname userId
  iconId := 0
  flags := 0
  options := 0
  address := address
  connectedAt := now
  lastActivity := now
  authState := .handshake

/-- `Session::authenticate_guest`. -/
def Session.authenticateGuest (s : Session) (nickname : List Nat) (iconId : Nat) : Session :=
  { s with nickname := nickname, iconId := iconId, authState := .authenticated }

/-- `Session::authenticate_user`. -/
def Session.authenticateUser (s : Session) (accountId : Int) (nickname : List Nat)
    (iconId : Nat) : Session :=
  { s with accountId := some accountId, nickname := nickname, iconId := iconId,
           authState := .authenticated }

/-- `Session::complete_handshake`. -/
def Session.completeHandshake (s : Session) : Session :=
  { s with authState := .loginPending }

/-- `Session::touch`. -/
def Session.touch (s : Session) (now : Nat) : Session :=
  { s with lastActivity := now }

/-- `Session::is_authenticated`. -/
def Session.isAuthenticated (s : Session) : Bool := s.authState == .authenticated

/-- An account row, db/accounts.rs `struct Account`: `password_hash`
is raw bytes, `access` is the stored i64. -/
structure Account where
  id : Int
  login : List Nat
  passwordHash : List Nat
  name : List Nat
  access : Int
  deriving DecidableEq

/-- Two's complement reinterpretation of an i64 as a u64 (`as u64`). -/
def i64AsU64 (v : Int) : Nat := (v % 2 ^ 64).toNat

/-- `Account::access_privileges`: `from_bits_truncate(access as u64)`. -/
def Account.accessPrivileges (a : Account) : Nat := fromBitsTruncate (i64AsU64 a.access)

/-- `Account::has_privilege`: bitflags `contains`. -/
def Account.hasPrivilege (a : Account) (required : Nat) : Bool :=
  a.accessPrivileges &&& required == required

/-- `AccessPrivileges::guest()`: READ_CHAT, SEND_CHAT, READ_NEWS,
DOWNLOAD_FILES. -/
def guestAccess : Nat := (1 <<< 9) ||| (1 <<< 10) ||| (1 <<< 20) ||| (1 <<< 2)

/-- The server-side environment a handler can observe: configuration,
the session registry, and the account store. The async account store
is modelled as total lookup functions (its error paths are outside the
embedded code). -/
structure Env where
  allowGuest : Bool
  serverName : List Nat
  sessions : List Session
  accountById : Int → Option Account
  accountByLogin : List Nat → Option Account
  accountExists : List Nat → Bool

/-- `ServerState::get_session`. -/
def getSession (env : Env) (uid : Nat) : Option Session :=
  env.sessions.find? (fun s => s.userId == uid)

/-- `check_privilege` from handlers/account.rs lines 18-43. -/
def checkPrivilege (env : Env) (uid : Nat) (required : Nat) : Bool :=
  match getSession env uid with
  | none => false
  | some s =>
    match s.accountId with
    | none => false
    | some accountId =>
      match env.accountById accountId with
      | some account => account.hasPrivilege required
      | none => false

/-- `Field::as_binary`. -/
def Field.asBinary (f : Field) : Option (List Nat) :=
  match f.data with
  | .binary b => some b
  | _ => none

/-- `Field::as_string` (returning the UTF-8 bytes of the string). -/
def Field.asString (f : Field) : Option (List Nat) :=
  match f.data with
  | .str s => some s
  | _ => none

/-- `Field::as_integer`. -/
def Field.asInteger (f : Field) : Option Int :=
  match f.data with
  | .integer v => some v
  | _ => none

/-- `create_server_transaction` from transaction_helpers.rs. -/
def createServerTransaction (ty : TransactionType) (fields : List Field) : Transaction where
  flags := 0
  isReply := false
  ty := ty
  id := 0
  errorCode := 0
  totalSize := 0
  dataSize := 0
  fields := fields

/-- `create_error_reply` from transaction_helpers.rs: echo type and
id, set `is_reply`, carry the error code, no fields. -/
def createErrorReply (request : Transaction) (code : ErrorCode) : Transaction where
  flags := 0
  isReply := true
  ty := request.ty
  id := request.id
  errorCode := code.toU32
  totalSize := 0
  dataSize := 0
  fields := []

/-- `create_success_reply` from transaction_helpers.rs. -/
def createSuccessReply (request : Transaction) (fields : List Field) : Transaction where
  flags := 0
  isReply := true
  ty := request.ty
  id := request.id
  errorCode := 0
  totalSize := 0
  dataSize := 0
  fields := fields

/-- `SERVER_VERSION` from protocol/constants.rs. -/
def serverVersion : Nat := 197

/-- The credential-extraction loop of `handle_login` (login.rs lines
32-42): later occurrences of a field overwrite earlier ones, and a
non-binary payload overwrites with `None`. -/
def extractLoginFields (fields : List Field) : Option (List Nat) × Option (List Nat) :=
  fields.foldl
    (fun acc f =>
      match f.id with
      | .userLogin => (f.asBinary, acc.2)
      | .userPassword => (acc.1, f.asBinary)
      | _ => acc)
    (none, none)

/-- The reply fields of a successful login (login.rs lines 83-95 and
144-156), parameterized by the access mask sent in field 110. The
build is assumed little-endian, so `to_wire_format` is the bit-reversed
little-endian form. -/
def loginSuccessFields (env : Env) (uid : Nat) (access : Nat) : List Field :=
  [⟨.version, .integer (serverVersion : Int)⟩,
   ⟨.userId, .integer (uid : Int)⟩,
   ⟨.userAccess, .binary (toWireFormatLE access)⟩,
   ⟨.bannerId, .integer 0⟩,
   ⟨.serverName, .str env.serverName⟩]

/-- The `login.as_ref().map_or(true, |l| l.is_empty())` test of
login.rs lines 45-46. -/
def credEmpty : Option (List Nat) → Bool
  | none => true
  | some l => l.isEmpty

/-- The guest test of login.rs lines 45-46: either credential missing
or empty. -/
def isGuestLogin (fields : List Field) : Bool :=
  credEmpty (extractLoginFields fields).1 || credEmpty (extractLoginFields fields).2

/-- `handle_login` (login.rs lines 21-169). The `anyhow` error paths
(missing credential after the guest test, an undecodable stored hash)
are `Except.error`; the `from_utf8_lossy` conversion of the unscrambled
login is absorbed into the account-lookup key. Session mutation is not
modelled; the returned value is the reply sent on the wire. -/
def handleLogin (env : Env) (uid : Nat) (transaction : Transaction) :
    Except Unit Transaction :=
  if isGuestLogin transaction.fields && !env.allowGuest then
    .ok (createErrorReply transaction .permissionDenied)
  else if isGuestLogin transaction.fields then
    .ok (createSuccessReply transaction (loginSuccessFields env uid guestAccess))
  else
    match (extractLoginFields transaction.fields).1,
        (extractLoginFields transaction.fields).2 with
    | some login, some password =>
      match env.accountByLogin (xorPassword login) with
      | some account =>
        match hexDecode account.passwordHash with
        | none => .error ()
        | some passwordHash =>
          if verifyPassword passwordHash (xorPassword password) then
            .ok (createSuccessReply transaction
                  (loginSuccessFields env uid account.accessPrivileges))
          else .ok (createErrorReply transaction .permissionDenied)
      | none => .ok (createErrorReply transaction .permissionDenied)
    | _, _ => .error ()

/-- Truncating cast of an i32 to the low 16 bits (`as i16` then
`as u16`). -/
def i32AsU16 (v : Int) : Nat := (v % 2 ^ 16).toNat

/-- `UserOptions::to_user_flags` (types/user.rs lines 71-82):
REFUSE_PRIVATE_MESSAGE projects to REFUSED_MESSAGES (bit 2) and
REFUSE_PRIVATE_CHAT to REFUSED_CHAT (bit 3). -/
def optionsToUserFlags (options : Nat) : Nat :=
  (if options &&& 1 != 0 then 4 else 0) ||| (if options &&& 2 != 0 then 8 else 0)

/-- ASCII whitespace test standing in for the Unicode `str::trim` of
handlers/agreed.rs (the nicknames of interest are ASCII). -/
def isSpaceByte (b : Nat) : Bool := b == 32 || b == 9 || b == 10 || b == 13

/-- Access-mask computation shared by `handle_agreed` (agreed.rs lines
69-85) and the post-Agreed push (handler.rs lines 117-133): an
account-backed session reads its account, anything else gets the guest
preset. -/
def sessionAccess (env : Env) (uid : Nat) : Nat :=
  match getSession env uid with
  | some s =>
    match s.accountId with
    | some accountId =>
      match env.accountById accountId with
      | some account => account.accessPrivileges
      | none => guestAccess
    | none => guestAccess
  | none => guestAccess

/-- The field-extraction loop of `handle_agreed` (agreed.rs lines
40-55): nickname, icon id, and the options bitfield
(`UserOptions::from_i16`, keeping bits 0-2). -/
def extractAgreedFields (fields : List Field) : Option (List Nat) × Option Int × Nat :=
  fields.foldl
    (fun acc f =>
      match f.id with
      | .userName => (f.asString, acc.2.1, acc.2.2)
      | .userIconId => (acc.1, f.asInteger, acc.2.2)
      | .options =>
        match f.asInteger with
        | some v => (acc.1, acc.2.1, i32AsU16 v &&& 7)
        | none => acc
      | _ => acc)
    (none, none, 0)

/-- The session-mutation values `handle_agreed` computes (agreed.rs
lines 57-115): the visible nickname (empty or blank falls back to the
guest name), the icon id (0 becomes the admin icon 410 for admins),
and the user flags (options projected, plus the ADMIN bit when the
access mask holds DISCONNECT_USERS). These update the session and feed
the UserJoined broadcast; the reply does not depend on them. -/
def agreedSessionUpdate (env : Env) (uid : Nat) (fields : List Field) :
    List Nat × Nat × Nat :=
  let ext := extractAgreedFields fields
  let nickname :=
    match ext.1 with
    | some n => if n.all isSpaceByte then guestNickname uid else n
    | none => guestNickname uid
  let iconId0 := i32AsU16 (match ext.2.1 with | some v => v | none => 0)
  let flags0 := optionsToUserFlags ext.2.2
  let isAdmin := sessionAccess env uid &&& (1 <<< 22) != 0
  (nickname,
   (if isAdmin && iconId0 == 0 then 410 else iconId0),
   (if isAdmin then flags0 ||| 2 else flags0))

/-- `handle_agreed` (agreed.rs lines 21-134). The session mutation
(`agreedSessionUpdate`) and the UserJoined broadcast are outside the
model; the returned value is the acknowledgment reply. -/
def handleAgreed (env : Env) (uid : Nat) (transaction : Transaction) :
    Except Unit (Option Transaction) :=
  match getSession env uid with
  | none => .ok none
  | some _ =>
    .ok (some
      { flags := 0
        isReply := true
        ty := .agreed
        id := transaction.id
        errorCode := ErrorCode.noError.toU32
        totalSize := 0
        dataSize := 0
        fields := [] })

/-- `handle_send_chat` (chat.rs lines 19-83): a missing session or a
missing Data field is an `anyhow` error, an unauthenticated session is
silently dropped, and a successful send broadcasts without a direct
reply. -/
def handleSendChat (env : Env) (uid : Nat) (transaction : Transaction) :
    Except Unit (Option Transaction) :=
  match getSession env uid with
  | none => .error ()
  | some s =>
    if !s.isAuthenticated then .ok none
    else
      match transaction.fields.foldl
          (fun acc f =>
            match f.id with
            | .data => f.asBinary
            | _ => acc)
          (none : Option (List Nat)) with
      | none => .error ()
      | some _ => .ok none

/-- The packed `UserNameWithInfo` payload of user_list.rs lines 46-52:
big-endian user id, icon id, flags, nickname length, nickname bytes. -/
def packUserNameWithInfo (s : Session) : List Nat :=
  putU16 s.userId ++ putU16 s.iconId ++ putU16 s.flags ++
    putU16 s.nickname.length ++ s.nickname

/-- `handle_get_user_name_list` (user_list.rs lines 21-74): nothing is
sent when the requesting session is missing; otherwise the reply lists
every authenticated session. -/
def handleGetUserNameList (env : Env) (uid : Nat) (transaction : Transaction) :
    Except Unit (Option Transaction) :=
  match getSession env uid with
  | none => .ok none
  | some _ =>
    .ok (some
      { flags := 0
        isReply := true
        ty := .getUserNameList
        id := transaction.id
        errorCode := ErrorCode.noError.toU32
        totalSize := 0
        dataSize := 0
        fields := (env.sessions.filter (fun s => s.isAuthenticated)).map
          (fun s => ⟨.userNameWithInfo, .binary (packUserNameWithInfo s)⟩) })

/-- Signed interpretation of a 64-bit value (`i64::from_be_bytes`). -/
def sext64 (n : Nat) : Int := if n < 2 ^ 63 then (n : Int) else (n : Int) - 2 ^ 64

/-- The field-extraction loop shared by `handle_new_user` and
`handle_set_user` (account.rs lines 74-99 and 256-280): login,
password, display name, and an 8-byte big-endian access value. -/
def extractAccountFields (fields : List Field) :
    Option (List Nat) × Option (List Nat) × Option (List Nat) × Option Int :=
  fields.foldl
    (fun acc f =>
      match f.id with
      | .userLogin => (f.asBinary, acc.2.1, acc.2.2.1, acc.2.2.2)
      | .userPassword => (acc.1, f.asBinary, acc.2.2.1, acc.2.2.2)
      | .userName => (acc.1, acc.2.1, f.asString, acc.2.2.2)
      | .userAccess =>
        (acc.1, acc.2.1, acc.2.2.1,
          match f.asBinary with
          | some bytes =>
            if bytes.length = 8 then some (sext64 (u64FromBeBytes bytes)) else none
          | none => none)
      | _ => acc)
    (none, none, none, none)

/-- The row handed to `create_account` by `handle_new_user`:
`password_storage` and the truncated access bits. -/
structure NewAccountRow where
  login : List Nat
  passwordHash : List Nat
  name : List Nat
  access : Nat
  deriving DecidableEq

/-- `AccessPrivileges::CREATE_USERS`. -/
def createUsersBit : Nat := 1 <<< 14

/-- `AccessPrivileges::DELETE_USERS`. -/
def deleteUsersBit : Nat := 1 <<< 15

/-- `AccessPrivileges::OPEN_USER`. -/
def openUserBit : Nat := 1 <<< 16

/-- `AccessPrivileges::MODIFY_USERS`. -/
def modifyUsersBit : Nat := 1 <<< 17

/-- `handle_new_user` (account.rs lines 55-161) together with the
validation done inside `create_account` (db/accounts.rs lines 42-48).
The result carries the reply and, on success, the row written to the
account store; `anyhow` error paths are `Except.error`. -/
def handleNewUser (env : Env) (uid : Nat) (transaction : Transaction) :
    Except Unit (Transaction × Option NewAccountRow) :=
  if !checkPrivilege env uid createUsersBit then
    .ok (createErrorReply transaction .permissionDenied, none)
  else
    match (extractAccountFields transaction.fields).1,
        (extractAccountFields transaction.fields).2.1,
        (extractAccountFields transaction.fields).2.2.1 with
    | some login, some password, some name =>
      if !utf8OK (xorPassword login) then .error ()
      else if (xorPassword login).isEmpty then
        .ok (createErrorReply transaction .invalidParameter, none)
      else if env.accountExists (xorPassword login) then
        .ok (createErrorReply transaction .alreadyExists, none)
      else if (xorPassword login).length > 31 || name.length > 31 then .error ()
      else
        .ok (createSuccessReply transaction [],
          some { login := xorPassword login
                 passwordHash := xorPassword password
                 name := name
                 access :=
                   fromBitsTruncate (i64AsU64
                     (match (extractAccountFields transaction.fields).2.2.2 with
                      | some a => a
                      | none => 0)) })
    | _, _, _ => .error ()

/-- `handle_get_user` (account.rs lines 172-225): the access mask is
sent back as the plain big-endian bytes of the stored i64. -/
def handleGetUser (env : Env) (uid : Nat) (transaction : Transaction) :
    Except Unit Transaction :=
  if !checkPrivilege env uid openUserBit then
    .ok (createErrorReply transaction .permissionDenied)
  else
    match (transaction.fields.find? (fun f => f.id == .userLogin)).bind Field.asBinary with
    | none => .error ()
    | some login =>
      if !utf8OK (xorPassword login) then .error ()
      else
        match env.accountByLogin (xorPassword login) with
        | none => .ok (createErrorReply transaction .notFound)
        | some account =>
          .ok (createSuccessReply transaction
            [⟨.userName, .str account.name⟩,
             ⟨.userLogin, .binary (xorPassword account.login)⟩,
             ⟨.userAccess, .binary (toWireFormatBE (i64AsU64 account.access))⟩])

/-- `handle_set_user` (account.rs lines 237-345). The password and
access writes always succeed in the store model; the reply is an empty
success. -/
def handleSetUser (env : Env) (uid : Nat) (transaction : Transaction) :
    Except Unit Transaction :=
  if !checkPrivilege env uid modifyUsersBit then
    .ok (createErrorReply transaction .permissionDenied)
  else
    match (extractAccountFields transaction.fields).1 with
    | none => .error ()
    | some login =>
      if !utf8OK (xorPassword login) then .error ()
      else
        match env.accountByLogin (xorPassword login) with
        | none => .ok (createErrorReply transaction .notFound)
        | some _ => .ok (createSuccessReply transaction [])

/-- `handle_delete_user` (account.rs lines 354-402). -/
def handleDeleteUser (env : Env) (uid : Nat) (transaction : Transaction) :
    Except Unit Transaction :=
  if !checkPrivilege env uid deleteUsersBit then
    .ok (createErrorReply transaction .permissionDenied)
  else
    match (transaction.fields.find? (fun f => f.id == .userLogin)).bind Field.asBinary with
    | none => .error ()
    | some login =>
      if !utf8OK (xorPassword login) then .error ()
      else
        match env.accountByLogin (xorPassword login) with
        | none => .ok (createErrorReply transaction .notFound)
        | some _ => .ok (createSuccessReply transaction [])

/-- `handle_transaction` (connection/handler.rs lines 379-435): the
dispatch table; every type without a dedicated handler is logged and
answered with no reply. -/
def handleTransaction (env : Env) (uid : Nat) (transaction : Transaction) :
    Except Unit (Option Transaction) :=
  match transaction.ty with
  | .login => (handleLogin env uid transaction).map some
  | .agreed => handleAgreed env uid transaction
  | .sendChat => handleSendChat env uid transaction
  | .getUserNameList => handleGetUserNameList env uid transaction
  | .newUser => (handleNewUser env uid transaction).map (fun p => some p.1)
  | .getUser => (handleGetUser env uid transaction).map some
  | .setUser => (handleSetUser env uid transaction).map some
  | .deleteUser => (handleDeleteUser env uid transaction).map some
  | _ => .ok none

/-- The `ShowAgreement` push sent after a successful login
(handler.rs lines 104-107): an empty Data string. -/
def showAgreementPush : Transaction :=
  createServerTransaction .showAgreement [⟨.data, .str []⟩]

/-- The `UserAccess` push sent after a successful Agreed (handler.rs
lines 141-147). -/
def userAccessPush (access : Nat) : Transaction :=
  createServerTransaction .userAccess [⟨.userAccess, .binary (toWireFormatLE access)⟩]

/-- One delivery of the inbound select arm of the connection loop. -/
inductive InboundEvent where
  | frame (t : Transaction)
  | decodeFailed (e : ProtocolError)
  | eof
  deriving DecidableEq

/-- What the connection loop does with the rest of the connection
after one inbound delivery. -/
inductive ConnAction where
  | keepOpen (sent : List Transaction)
  | close (sent : List Transaction)
  deriving DecidableEq

/-- The inbound arm of the connection loop (handler.rs lines 62-172):
a decoded frame is dispatched and its reply (plus the post-login or
post-agreed push) is sent with the connection kept open, handler
errors are logged without closing, and a codec error or EOF breaks
the loop, closing the connection. -/
def inboundStep (env : Env) (uid : Nat) (ev : InboundEvent) : ConnAction :=
  match ev with
  | .frame transaction =>
    match handleTransaction env uid transaction with
    | .ok (some reply) =>
      let wasSuccessfulLogin := transaction.ty == .login && reply.errorCode == 0
      let wasSuccessfulAgreed := transaction.ty == .agreed && reply.errorCode == 0
      .keepOpen ([reply] ++
        (if wasSuccessfulLogin then [showAgreementPush] else []) ++
        (if wasSuccessfulAgreed then [userAccessPush (sessionAccess env uid)] else []))
    | .ok none => .keepOpen []
    | .error _ => .keepOpen []
  | .decodeFailed _ => .close []
  | .eof => .close []

theorem getU16_split (n : Nat) (h : n < 2 ^ 16) :
    getU16 (n / 2 ^ 8 % 2 ^ 8) (n % 2 ^ 8) = n := by
  unfold getU16
  omega

theorem getU32_split (n : Nat) (h : n < 2 ^ 32) :
    getU32 (n / 2 ^ 24 % 2 ^ 8) (n / 2 ^ 16 % 2 ^ 8) (n / 2 ^ 8 % 2 ^ 8) (n % 2 ^ 8) = n := by
  unfold getU32
  omega

theorem fieldId_toU16_lt (fid : FieldId) : fid.toU16 < 2 ^ 16 := by
  cases fid <;> decide

theorem txType_toU16_lt (ty : TransactionType) : ty.toU16 < 2 ^ 16 := by
  cases ty <;> decide

theorem decodeFieldsLoop_ne_tooLarge (n : Nat) (buf : List Nat) (s m : Nat) :
    decodeFieldsLoop n buf ≠ .error (.transactionTooLarge s m) := by
  induction n generalizing buf with
  | zero => simp [decodeFieldsLoop]
  | succ k ih =>
    match buf with
    | [] => simp [decodeFieldsLoop]
    | [_] => simp [decodeFieldsLoop]
    | [_, _] => simp [decodeFieldsLoop]
    | [_, _, _] => simp [decodeFieldsLoop]
    | i1 :: i2 :: s1 :: s2 :: rest =>
      simp only [decodeFieldsLoop]
      split
      · simp
      · split
        · simp
        · split
          · rename_i heq
            intro hcontra
            injection hcontra with h2
            exact ih _ (h2 ▸ heq)
          · simp

theorem decodeFields_ne_tooLarge (buf : List Nat) (s m : Nat) :
    decodeFields buf ≠ .error (.transactionTooLarge s m) := by
  match buf with
  | [] => simp [decodeFields]
  | [_] => simp [decodeFields]
  | c1 :: c2 :: rest =>
    simp only [decodeFields]
    exact decodeFieldsLoop_ne_tooLarge _ _ _ _

/-- Wire bytes of a full single frame: the 20-byte header with the
given fields followed by a payload. -/
def mkTxBytes (flags rep tyc tid ec ts ds : Nat) (payload : List Nat) : List Nat :=
  [flags, rep] ++ putU16 tyc ++ putU32 tid ++ putU32 ec ++ putU32 ts ++ putU32 ds ++
    payload

/-- C4 counterexample: a syntactically well-formed field whose id 999
is not in the enumeration makes `decode_fields` fail with
`InvalidFieldId`; it is not surfaced as an opaque-bytes field. -/
theorem unknown_field_id_counterexample :
    decodeFields [0, 1, 3, 231, 0, 0] = .error (.invalidFieldId 999) := rfl

/-- C4 (amended): a well-formed field whose 16-bit id is not in the
known enumeration makes field decoding fail with `InvalidFieldId(id)`
at that field, whatever well-formed fields follow; nothing is surfaced
and the remaining fields are not decoded. -/
theorem unknown_field_id_fails_decode (fid : Nat) (p rest : List Nat)
    (hunk : FieldId.fromU16 fid = none) (hfid : fid < 2 ^ 16)
    (hp : p.length < 2 ^ 16) :
    decodeFields (putU16 2 ++ putU16 fid ++ putU16 p.length ++ p ++ rest) =
      .error (.invalidFieldId fid) := by
  have hfid2 := getU16_split fid hfid
  have hp2 := getU16_split p.length hp
  simp only [putU16, List.cons_append, List.nil_append, decodeFields, decodeFieldsLoop,
    hfid2, hp2, hunk]
  norm_num [decodeFieldsLoop, hunk]

/-- C4 witness: the amended statement at id 999 with a 1-byte payload. -/
theorem unknown_field_id_fails_decode_witness :
    FieldId.fromU16 999 = none ∧ 999 < 2 ^ 16 ∧ [(5 : Nat)].length < 2 ^ 16 ∧
      decodeFields (putU16 2 ++ putU16 999 ++ putU16 [(5 : Nat)].length ++ [5] ++ [0]) =
        .error (.invalidFieldId 999) :=
  ⟨by decide, by decide, by decide,
    unknown_field_id_fails_decode 999 [5] [0] (by decide) (by decide) (by decide)⟩

/-- A 20-byte buffer holding only a header that declares
`data_size = 32769`. -/
def hdrOnly32769 : List Nat := [0, 0, 0, 105, 0, 0, 0, 1, 0, 0, 0, 0, 0, 0, 128, 1, 0, 0, 128, 1]

/-- C5: when only the header of an oversized frame has arrived,
`decode` does not fail with TooLarge: it reserves space for the whole
declared payload (here 32769 more bytes) and returns NeedMore, waiting
for the payload; TooLarge is produced only once the full frame is
buffered, and then exactly when `data_size > 32768`. -/
theorem decode_tooLarge_only_after_full_frame :
    decodeTransaction hdrOnly32769 = .needMore 32769 ∧
      ∀ (flags rep tyc tid ec ts : Nat) (payload : List Nat),
        payload.length < 2 ^ 32 →
        ((payload.length > 32768 →
           decodeTransaction (mkTxBytes flags rep tyc tid ec ts payload.length payload) =
             .protoError (.transactionTooLarge payload.length 32768)) ∧
         (payload.length ≤ 32768 → ∀ s2 m2,
           decodeTransaction (mkTxBytes flags rep tyc tid ec ts payload.length payload) ≠
             .protoError (.transactionTooLarge s2 m2))) := by
  refine ⟨by decide, ?_⟩
  intro flags rep tyc tid ec ts payload hplen
  have hds := getU32_split payload.length hplen
  have hshape :
      mkTxBytes flags rep tyc tid ec ts payload.length payload =
        flags :: rep :: (tyc / 2 ^ 8 % 2 ^ 8) :: (tyc % 2 ^ 8) ::
          (tid / 2 ^ 24 % 2 ^ 8) :: (tid / 2 ^ 16 % 2 ^ 8) :: (tid / 2 ^ 8 % 2 ^ 8) ::
          (tid % 2 ^ 8) ::
          (ec / 2 ^ 24 % 2 ^ 8) :: (ec / 2 ^ 16 % 2 ^ 8) :: (ec / 2 ^ 8 % 2 ^ 8) ::
          (ec % 2 ^ 8) ::
          (ts / 2 ^ 24 % 2 ^ 8) :: (ts / 2 ^ 16 % 2 ^ 8) :: (ts / 2 ^ 8 % 2 ^ 8) ::
          (ts % 2 ^ 8) ::
          (payload.length / 2 ^ 24 % 2 ^ 8) :: (payload.length / 2 ^ 16 % 2 ^ 8) ::
          (payload.length / 2 ^ 8 % 2 ^ 8) :: (payload.length % 2 ^ 8) :: payload := by
    simp [mkTxBytes, putU16, putU32]
  rw [hshape]
  constructor
  · intro hbig
    unfold decodeTransaction decodeTx
    simp only [parseHeader, hds, List.length_cons, maxTransactionSize]
    rw [if_neg (by omega), if_neg (by omega), if_pos (by omega)]
  · intro hsmall s2 m2
    unfold decodeTransaction decodeTx
    simp only [parseHeader, hds, List.length_cons, maxTransactionSize]
    rw [if_neg (by omega), if_neg (by omega), if_neg (by omega)]
    split
    · simp
    · split
      · rename_i e heq
        intro hcontra
        injection hcontra with h2
        have hne : (if payload.length > 0 then
            decodeFields ((List.drop 20 (flags :: rep :: (tyc / 2 ^ 8 % 2 ^ 8) :: (tyc % 2 ^ 8) ::
              (tid / 2 ^ 24 % 2 ^ 8) :: (tid / 2 ^ 16 % 2 ^ 8) :: (tid / 2 ^ 8 % 2 ^ 8) ::
              (tid % 2 ^ 8) ::
              (ec / 2 ^ 24 % 2 ^ 8) :: (ec / 2 ^ 16 % 2 ^ 8) :: (ec / 2 ^ 8 % 2 ^ 8) ::
              (ec % 2 ^ 8) ::
              (ts / 2 ^ 24 % 2 ^ 8) :: (ts / 2 ^ 16 % 2 ^ 8) :: (ts / 2 ^ 8 % 2 ^ 8) ::
              (ts % 2 ^ 8) ::
              (payload.length / 2 ^ 24 % 2 ^ 8) :: (payload.length / 2 ^ 16 % 2 ^ 8) ::
              (payload.length / 2 ^ 8 % 2 ^ 8) :: (payload.length % 2 ^ 8) :: payload)).take
                payload.length)
          else Except.ok []) ≠ .error (.transactionTooLarge s2 m2) := by
          split
          · exact decodeFields_ne_tooLarge _ _ _
          · simp
        rw [h2] at heq
        exact hne heq
      · simp

/-- C5 witness: a complete 22-byte frame with `data_size = 2` is not
rejected as TooLarge. -/
theorem decode_tooLarge_only_after_full_frame_witness :
    [(0 : Nat), 0].length < 2 ^ 32 ∧ [(0 : Nat), 0].length ≤ 32768 ∧
      decodeTransaction (mkTxBytes 0 0 105 1 0 0 [(0 : Nat), 0].length [0, 0]) ≠
        .protoError (.transactionTooLarge 2 32768) :=
  ⟨by decide, by decide,
    ((decode_tooLarge_only_after_full_frame.2 0 0 105 1 0 0 [0, 0] (by decide)).2
      (by decide) 2 32768)⟩

/-- An environment with no sessions and an empty account store. -/
def env0 : Env where
  allowGuest := true
  serverName := []
  sessions := []
  accountById := fun _ => none
  accountByLogin := fun _ => none
  accountExists := fun _ => false

/-- The exact frame of the claim: type 999, id 42, data_size 0. -/
def frame999 : List Nat := [0, 0, 3, 231, 0, 0, 0, 42, 0, 0, 0, 0, 0, 0, 0, 0, 0, 0, 0, 0]

/-- C2 counterexample: a well-formed frame with the unrecognized type
999 is a decode error, and the connection loop closes the connection
on a decode error instead of ignoring the frame. -/
theorem unknown_tx_type_counterexample :
    decodeTransaction frame999 = .protoError (.invalidTransactionType 999) ∧
      inboundStep env0 1 (.decodeFailed (.invalidTransactionType 999)) = .close [] :=
  ⟨by decide, rfl⟩

/-- C2 (amended): a 16-bit type outside the recognized enumeration
makes `decode` fail with `InvalidTransactionType`, and the connection
loop logs the error and closes the connection; only a type inside the
enumeration that lacks a dedicated handler is logged and ignored with
no reply, the connection staying open for the next request. -/
theorem unknown_tx_type_closes (env : Env) (uid tyc tid : Nat) (t : Transaction)
    (hunk : TransactionType.fromU16 tyc = none) (htyc : tyc < 2 ^ 16)
    (ht : t.ty = .keepConnectionAlive) :
    decodeTransaction (mkTxBytes 0 0 tyc tid 0 0 0 []) =
        .protoError (.invalidTransactionType tyc) ∧
      inboundStep env uid (.decodeFailed (.invalidTransactionType tyc)) = .close [] ∧
      handleTransaction env uid t = .ok none ∧
      inboundStep env uid (.frame t) = .keepOpen [] := by
  have htyc2 := getU16_split tyc htyc
  have hdisp : handleTransaction env uid t = .ok none := by
    unfold handleTransaction
    rw [ht]
  refine ⟨?_, rfl, hdisp, ?_⟩
  · unfold decodeTransaction decodeTx
    simp only [mkTxBytes, putU16, putU32, List.cons_append, List.nil_append, parseHeader,
      htyc2, hunk]
    norm_num [getU32]
  · simp [inboundStep, hdisp]

/-- C2 witness: the amended statement at type 999, id 42, with a
KeepConnectionAlive request. -/
theorem unknown_tx_type_closes_witness :
    TransactionType.fromU16 999 = none ∧ 999 < 2 ^ 16 ∧
      (Transaction.ty ⟨0, false, .keepConnectionAlive, 7, 0, 0, 0, []⟩ = .keepConnectionAlive) ∧
      (decodeTransaction (mkTxBytes 0 0 999 42 0 0 0 []) =
          .protoError (.invalidTransactionType 999) ∧
        inboundStep env0 1 (.decodeFailed (.invalidTransactionType 999)) = .close [] ∧
        handleTransaction env0 1 ⟨0, false, .keepConnectionAlive, 7, 0, 0, 0, []⟩ = .ok none ∧
        inboundStep env0 1 (.frame ⟨0, false, .keepConnectionAlive, 7, 0, 0, 0, []⟩) =
          .keepOpen []) :=
  ⟨by decide, by decide, rfl,
    unknown_tx_type_closes env0 1 999 42 _ (by decide) (by decide) rfl⟩

/-- A concrete authenticated session. -/
def sessionAuth : Session where
  userId := 1
  accountId := none
  nickname := [65]
  iconId := 0
  flags := 0
  options := 0
  address := 0
  connectedAt := 0
  lastActivity := 0
  authState := .authenticated

/-- C9 counterexample: `complete_handshake` moves an Authenticated
session back to LoginPending, so not every session mutator keeps an
Authenticated session Authenticated. -/
theorem session_oneway_counterexample :
    sessionAuth.authState = .authenticated ∧
      (Session.completeHandshake sessionAuth).authState ≠ .authenticated := by
  exact ⟨rfl, by decide⟩

/-- C9 (amended): on an Authenticated session, `authenticate_guest`,
`authenticate_user` and `touch` keep the state Authenticated, while
`complete_handshake` unconditionally resets it to LoginPending (the
pipeline only calls it right after the handshake). -/
theorem session_mutators_oneway (s : Session) (nickname : List Nat)
    (iconId : Nat) (accountId : Int) (now : Nat)
    (h : s.authState = .authenticated) :
    (s.authenticateGuest nickname iconId).authState = .authenticated ∧
      (s.authenticateUser accountId nickname iconId).authState = .authenticated ∧
      (s.touch now).authState = .authenticated ∧
      s.completeHandshake.authState = .loginPending := by
  simp [Session.authenticateGuest, Session.authenticateUser, Session.touch,
    Session.completeHandshake, h]

/-- C9 witness: the mutators applied to a concrete authenticated
session. -/
theorem session_mutators_oneway_witness :
    sessionAuth.authState = .authenticated ∧
      ((sessionAuth.authenticateGuest [66] 2).authState = .authenticated ∧
        (sessionAuth.authenticateUser 3 [66] 2).authState = .authenticated ∧
        (sessionAuth.touch 9).authState = .authenticated ∧
        sessionAuth.completeHandshake.authState = .loginPending) :=
  ⟨rfl, session_mutators_oneway sessionAuth [66] 2 3 9 rfl⟩

/-- A concrete session that has completed the handshake but not
logged in. -/
def sessionPending : Session where
  userId := 1
  accountId := none
  nickname := [65]
  iconId := 0
  flags := 0
  options := 0
  address := 0
  connectedAt := 0
  lastActivity := 0
  authState := .loginPending

/-- An environment whose only session is `sessionPending`. -/
def envPending : Env where
  allowGuest := true
  serverName := []
  sessions := [sessionPending]
  accountById := fun _ => none
  accountByLogin := fun _ => none
  accountExists := fun _ => false

/-- A GetUserNameList request with id 9. -/
def req300 : Transaction := ⟨0, false, .getUserNameList, 9, 0, 0, 0, []⟩

/-- C8 counterexample: a LoginPending (not Authenticated) requester
still receives a GetUserNameList reply, so the handler does not reply
only to Authenticated sessions. -/
theorem user_list_counterexample :
    sessionPending.isAuthenticated = false ∧
      handleGetUserNameList envPending 1 req300 =
        .ok (some ⟨0, true, .getUserNameList, 9, 0, 0, 0, []⟩) :=
  ⟨rfl, rfl⟩

/-- C8 (amended): the GetUserNameList handler replies whenever the
requesting session merely exists, in any auth state (and nothing is
sent only when it does not); the success reply carries one
UserNameWithInfo (field 300) per Authenticated live session, packed
big-endian as u16 user_id, u16 icon_id, u16 flags, u16 name_len, then
the name bytes. -/
theorem user_list_reply_shape (env : Env) (uid : Nat) (t : Transaction) :
    handleGetUserNameList env uid t =
      .ok ((getSession env uid).map (fun _ =>
        { flags := 0
          isReply := true
          ty := .getUserNameList
          id := t.id
          errorCode := 0
          totalSize := 0
          dataSize := 0
          fields := (env.sessions.filter (fun s => s.isAuthenticated)).map
            (fun s => ⟨.userNameWithInfo,
              .binary (putU16 s.userId ++ putU16 s.iconId ++ putU16 s.flags ++
                putU16 s.nickname.length ++ s.nickname)⟩) })) := by
  unfold handleGetUserNameList packUserNameWithInfo
  cases getSession env uid <;> simp [ErrorCode.toU32]

/-- An account with the OPEN_USER and CREATE_USERS privileges. -/
def accountAdmin : Account where
  id := 9
  login := [97]
  passwordHash := []
  name := [65]
  access := (1 <<< 14) + (1 <<< 16)

/-- The target account of the GetUser request: login "bob",
access mask 1 (DELETE_FILES). -/
def accountBob : Account where
  id := 7
  login := [98, 111, 98]
  passwordHash := []
  name := [66, 111, 98]
  access := 1

/-- An authenticated admin session backed by `accountAdmin`. -/
def sessionAdmin : Session where
  userId := 1
  accountId := some 9
  nickname := [65]
  iconId := 0
  flags := 0
  options := 0
  address := 0
  connectedAt := 0
  lastActivity := 0
  authState := .authenticated

/-- Environment for the GetUser exchange: the admin is connected and
the store holds `accountAdmin` and `accountBob`. -/
def envGetUser : Env where
  allowGuest := true
  serverName := []
  sessions := [sessionAdmin]
  accountById := fun i => if i == 9 then some accountAdmin else none
  accountByLogin := fun l => if l == [98, 111, 98] then some accountBob else none
  accountExists := fun _ => false

/-- A GetUser request for the scrambled login "bob". -/
def reqGetUser : Transaction :=
  ⟨0, false, .getUser, 11, 0, 0, 0, [⟨.userLogin, .binary (xorPassword [98, 111, 98])⟩]⟩

/-- C10: the server emits the 8-byte UserAccess field (110) in two
different encodings. The Login reply and the post-Agreed UserAccess
push both use `to_wire_format` (on a little-endian host, bit-reversed
little-endian bytes), while the GetUser reply emits the plain
big-endian bytes of the stored mask; for mask 1 the two byte strings
differ. -/
theorem user_access_two_encodings :
    (∀ (env : Env) (uid m : Nat),
      (loginSuccessFields env uid m).find? (fun f => f.id == .userAccess) =
        some ⟨.userAccess, .binary (toWireFormatLE m)⟩) ∧
    (∀ m : Nat, (userAccessPush m).fields = [⟨.userAccess, .binary (toWireFormatLE m)⟩]) ∧
    handleGetUser envGetUser 1 reqGetUser =
      .ok (createSuccessReply reqGetUser
        [⟨.userName, .str [66, 111, 98]⟩,
         ⟨.userLogin, .binary (xorPassword [98, 111, 98])⟩,
         ⟨.userAccess, .binary (toWireFormatBE (i64AsU64 1))⟩]) ∧
    accountBob.accessPrivileges = 1 ∧
    toWireFormatBE (i64AsU64 1) ≠ toWireFormatLE 1 := by
  refine ⟨fun env uid m => rfl, fun m => rfl, rfl, by decide, by decide⟩

/-- The plaintext password "secret". -/
def secretBytes : List Nat := [115, 101, 99, 114, 101, 116]

/-- The login "alice". -/
def aliceBytes : List Nat := [97, 108, 105, 99, 101]

/-- An authenticated session for the account creator, backed by
`accountAdmin` (which holds CREATE_USERS). -/
def sessionCreator : Session where
  userId := 2
  accountId := some 9
  nickname := [65]
  iconId := 0
  flags := 0
  options := 0
  address := 0
  connectedAt := 0
  lastActivity := 0
  authState := .authenticated

/-- Environment for the NewUser request. -/
def envNewUser : Env where
  allowGuest := true
  serverName := []
  sessions := [sessionCreator]
  accountById := fun i => if i == 9 then some accountAdmin else none
  accountByLogin := fun _ => none
  accountExists := fun _ => false

/-- The NewUser request carrying the scrambled login "alice" and the
scrambled password "secret". -/
def reqNewUser : Transaction :=
  ⟨0, false, .newUser, 5, 0, 0, 0,
    [⟨.userLogin, .binary (xorPassword aliceBytes)⟩,
     ⟨.userPassword, .binary (xorPassword secretBytes)⟩,
     ⟨.userName, .str aliceBytes⟩]⟩

/-- The account row as it exists after the NewUser request. -/
def accountAlice : Account where
  id := 20
  login := aliceBytes
  passwordHash := secretBytes
  name := aliceBytes
  access := 0

/-- Environment for the subsequent Login request: the store holds the
row `handle_new_user` persisted. -/
def envLoginAlice : Env where
  allowGuest := true
  serverName := []
  sessions := [sessionCreator]
  accountById := fun _ => none
  accountByLogin := fun l => if l == aliceBytes then some accountAlice else none
  accountExists := fun l => l == aliceBytes

/-- The Login request with the same scrambled credentials. -/
def reqLoginAlice : Transaction :=
  ⟨0, false, .login, 6, 0, 0, 0,
    [⟨.userLogin, .binary (xorPassword aliceBytes)⟩,
     ⟨.userPassword, .binary (xorPassword secretBytes)⟩]⟩

/-- C3: `handle_new_user` persists the unscrambled plaintext "secret",
not its byte-wise complement, and the subsequent Login for that account
hex-decodes the stored bytes before comparing, which fails on "secret",
so the login ends in a handler error instead of a success reply. -/
theorem new_user_password_storage :
    handleNewUser envNewUser 2 reqNewUser =
        .ok (createSuccessReply reqNewUser [], some ⟨aliceBytes, secretBytes, aliceBytes, 0⟩) ∧
      secretBytes ≠ xorPassword secretBytes ∧
      hexDecode secretBytes = none ∧
      handleLogin envLoginAlice 2 reqLoginAlice = .error () := by
  refine ⟨rfl, by decide, by decide, rfl⟩

/-- The reply contract of §4.5: echo the request type and id, mark the
reply bit, and carry no fields on errors. -/
def ReplyEcho (t r : Transaction) : Prop :=
  r.isReply = true ∧ r.ty = t.ty ∧ r.id = t.id ∧ (r.errorCode ≠ 0 → r.fields = [])

theorem replyEcho_error (t : Transaction) (c : ErrorCode) :
    ReplyEcho t (createErrorReply t c) :=
  ⟨rfl, rfl, rfl, fun _ => rfl⟩

theorem replyEcho_success (t : Transaction) (fs : List Field) :
    ReplyEcho t (createSuccessReply t fs) :=
  ⟨rfl, rfl, rfl, fun h => absurd rfl h⟩

theorem handleLogin_echo (env : Env) (uid : Nat) (t r : Transaction)
    (h : handleLogin env uid t = .ok r) : ReplyEcho t r := by
  unfold handleLogin at h
  repeat' split at h
  all_goals try exact Except.noConfusion h
  all_goals injection h with h1
  all_goals first
    | exact h1 ▸ replyEcho_error ..
    | exact h1 ▸ replyEcho_success ..

theorem handleAgreed_echo (env : Env) (uid : Nat) (t r : Transaction)
    (hty : t.ty = .agreed) (h : handleAgreed env uid t = .ok (some r)) :
    ReplyEcho t r := by
  unfold handleAgreed at h
  split at h
  · exact absurd h (by simp)
  · simp only [Except.ok.injEq, Option.some.injEq] at h
    subst h
    exact ⟨rfl, hty.symm, rfl, fun hne => absurd rfl hne⟩

theorem handleSendChat_no_reply (env : Env) (uid : Nat) (t r : Transaction) :
    handleSendChat env uid t ≠ .ok (some r) := by
  unfold handleSendChat
  repeat' split
  all_goals simp

theorem handleGetUserNameList_echo (env : Env) (uid : Nat) (t r : Transaction)
    (hty : t.ty = .getUserNameList) (h : handleGetUserNameList env uid t = .ok (some r)) :
    ReplyEcho t r := by
  unfold handleGetUserNameList at h
  split at h
  · exact absurd h (by simp)
  · simp only [Except.ok.injEq, Option.some.injEq] at h
    subst h
    exact ⟨rfl, hty.symm, rfl, fun hne => absurd rfl hne⟩

theorem handleNewUser_echo (env : Env) (uid : Nat) (t r : Transaction)
    (w : Option NewAccountRow) (h : handleNewUser env uid t = .ok (r, w)) :
    ReplyEcho t r := by
  unfold handleNewUser at h
  repeat' split at h
  all_goals try exact Except.noConfusion h
  all_goals injection h with h1
  all_goals injection h1 with h2 h3
  all_goals first
    | exact h2 ▸ replyEcho_error ..
    | exact h2 ▸ replyEcho_success ..

theorem handleGetUser_echo (env : Env) (uid : Nat) (t r : Transaction)
    (h : handleGetUser env uid t = .ok r) : ReplyEcho t r := by
  unfold handleGetUser at h
  repeat' split at h
  all_goals try exact Except.noConfusion h
  all_goals injection h with h1
  all_goals first
    | exact h1 ▸ replyEcho_error ..
    | exact h1 ▸ replyEcho_success ..

theorem handleSetUser_echo (env : Env) (uid : Nat) (t r : Transaction)
    (h : handleSetUser env uid t = .ok r) : ReplyEcho t r := by
  unfold handleSetUser at h
  repeat' split at h
  all_goals try exact Except.noConfusion h
  all_goals injection h with h1
  all_goals first
    | exact h1 ▸ replyEcho_error ..
    | exact h1 ▸ replyEcho_success ..

theorem handleDeleteUser_echo (env : Env) (uid : Nat) (t r : Transaction)
    (h : handleDeleteUser env uid t = .ok r) : ReplyEcho t r := by
  unfold handleDeleteUser at h
  repeat' split at h
  all_goals try exact Except.noConfusion h
  all_goals injection h with h1
  all_goals first
    | exact h1 ▸ replyEcho_error ..
    | exact h1 ▸ replyEcho_success ..

/-- C7: every reply a dispatched transaction handler produces carries
the request transaction type and id with is_reply set, and every error
reply (nonzero error code) carries an empty field list alongside the
ErrorCode the handler chose. -/
theorem handler_reply_echoes_request (env : Env) (uid : Nat) (t r : Transaction)
    (h : handleTransaction env uid t = .ok (some r)) :
    r.isReply = true ∧ r.ty = t.ty ∧ r.id = t.id ∧
      (r.errorCode ≠ 0 → r.fields = []) := by
  unfold handleTransaction at h
  split at h
  case h_1 hty =>
    cases hl : handleLogin env uid t with
    | error e => rw [hl] at h; exact absurd h (by simp [Except.map])
    | ok r0 =>
      rw [hl] at h
      simp only [Except.map, Except.ok.injEq, Option.some.injEq] at h
      exact h ▸ handleLogin_echo env uid t r0 hl
  case h_2 hty => exact handleAgreed_echo env uid t r hty h
  case h_3 hty => exact absurd h (handleSendChat_no_reply env uid t r)
  case h_4 hty => exact handleGetUserNameList_echo env uid t r hty h
  case h_5 hty =>
    cases hl : handleNewUser env uid t with
    | error e => rw [hl] at h; exact absurd h (by simp [Except.map])
    | ok p =>
      rw [hl] at h
      simp only [Except.map, Except.ok.injEq, Option.some.injEq] at h
      exact h ▸ handleNewUser_echo env uid t p.1 p.2 hl
  case h_6 hty =>
    cases hl : handleGetUser env uid t with
    | error e => rw [hl] at h; exact absurd h (by simp [Except.map])
    | ok r0 =>
      rw [hl] at h
      simp only [Except.map, Except.ok.injEq, Option.some.injEq] at h
      exact h ▸ handleGetUser_echo env uid t r0 hl
  case h_7 hty =>
    cases hl : handleSetUser env uid t with
    | error e => rw [hl] at h; exact absurd h (by simp [Except.map])
    | ok r0 =>
      rw [hl] at h
      simp only [Except.map, Except.ok.injEq, Option.some.injEq] at h
      exact h ▸ handleSetUser_echo env uid t r0 hl
  case h_8 hty =>
    cases hl : handleDeleteUser env uid t with
    | error e => rw [hl] at h; exact absurd h (by simp [Except.map])
    | ok r0 =>
      rw [hl] at h
      simp only [Except.map, Except.ok.injEq, Option.some.injEq] at h
      exact h ▸ handleDeleteUser_echo env uid t r0 hl
  case h_9 => exact absurd h (by simp)

/-- C7 witness: a guest Login attempt with guests disabled produces a
PermissionDenied error reply echoing the request. -/
theorem handler_reply_echoes_request_witness :
    handleTransaction
        ⟨false, [], [], fun _ => none, fun _ => none, fun _ => false⟩ 1
        ⟨0, false, .login, 4, 0, 0, 0, []⟩ =
      .ok (some ⟨0, true, .login, 4, 2, 0, 0, []⟩) ∧
      ((0 : Nat) < 1 ∨
        ((⟨0, true, .login, 4, 2, 0, 0, []⟩ : Transaction).isReply = true ∧
          (⟨0, true, .login, 4, 2, 0, 0, []⟩ : Transaction).ty =
            (⟨0, false, .login, 4, 0, 0, 0, []⟩ : Transaction).ty ∧
          (⟨0, true, .login, 4, 2, 0, 0, []⟩ : Transaction).id =
            (⟨0, false, .login, 4, 0, 0, 0, []⟩ : Transaction).id ∧
          ((⟨0, true, .login, 4, 2, 0, 0, []⟩ : Transaction).errorCode ≠ 0 →
            (⟨0, true, .login, 4, 2, 0, 0, []⟩ : Transaction).fields = []))) :=
  ⟨rfl, Or.inr (handler_reply_echoes_request
    ⟨false, [], [], fun _ => none, fun _ => none, fun _ => false⟩ 1
    ⟨0, false, .login, 4, 0, 0, 0, []⟩ ⟨0, true, .login, 4, 2, 0, 0, []⟩ rfl)⟩

/-- Well-formedness of a field for the round-trip law: the data
constructor agrees with the per-id decode policy (an integer value on
an integer-policy id within i32 range, a valid-UTF-8 string on a
string-policy id, bytes elsewhere) and the payload fits the 16-bit
field size. -/
def fieldWF (f : Field) : Bool :=
  match f.data with
  | .integer v => isIntegerFieldId f.id && decide (-(2 ^ 31) ≤ v) && decide (v < 2 ^ 31)
  | .str s => isStringFieldId f.id && utf8OK s && decide (s.length < 2 ^ 16)
  | .binary b =>
    !isIntegerFieldId f.id && !isStringFieldId f.id && decide (b.length < 2 ^ 16)

theorem encodeFieldData_length_lt (f : Field) (h : fieldWF f = true) :
    (encodeFieldData f.data).length < 2 ^ 16 := by
  unfold fieldWF at h
  rcases hd : f.data with v | s | b <;> rw [hd] at h <;>
    simp only [Bool.and_eq_true, decide_eq_true_eq, Bool.not_eq_true'] at h
  · simp only [encodeFieldData]
    split <;> simp [putI16, putI32, putU16, putU32]
  · exact h.2
  · exact h.2

theorem isStringFieldId_not_integer (fid : FieldId) (h : isStringFieldId fid = true) :
    isIntegerFieldId fid = false := by
  cases fid <;> simp_all [isStringFieldId, isIntegerFieldId]

theorem isStringFieldId_not_userAccess (fid : FieldId) (h : isStringFieldId fid = true) :
    fid ≠ .userAccess := by
  cases fid <;> simp_all [isStringFieldId]

theorem decodeFieldData_int2 (fid : FieldId) (hint : isIntegerFieldId fid = true)
    (a b : Nat) : decodeFieldData fid [a, b] = .integer (sext16 (getU16 a b)) := by
  simp [decodeFieldData, hint]

theorem decodeFieldData_int4 (fid : FieldId) (hint : isIntegerFieldId fid = true)
    (a b c d : Nat) :
    decodeFieldData fid [a, b, c, d] = .integer (sext32 (getU32 a b c d)) := by
  simp [decodeFieldData, hint]

theorem decodeFieldData_strId (fid : FieldId) (hstr : isStringFieldId fid = true)
    (d : List Nat) :
    decodeFieldData fid d = if utf8OK d then .str d else .binary d := by
  rw [decodeFieldData, isStringFieldId_not_integer fid hstr, if_neg (by simp),
    if_neg (isStringFieldId_not_userAccess fid hstr), hstr, if_pos rfl]

theorem decodeFieldData_binId (fid : FieldId) (hint : isIntegerFieldId fid = false)
    (hstr : isStringFieldId fid = false) (d : List Nat) :
    decodeFieldData fid d = .binary d := by
  rw [decodeFieldData, hint, if_neg (by simp)]
  split
  · rfl
  · rw [hstr, if_neg (by simp)]

theorem sext16_mod (v : Int) (hlo : -(2 ^ 15) ≤ v) (hhi : v ≤ 2 ^ 15 - 1) :
    sext16 (v % 2 ^ 16).toNat = v := by
  unfold sext16
  omega

theorem sext32_mod (v : Int) (hlo : -(2 ^ 31) ≤ v) (hhi : v < 2 ^ 31) :
    sext32 (v % 2 ^ 32).toNat = v := by
  unfold sext32
  omega

theorem decodeFieldData_encode (f : Field) (h : fieldWF f = true) :
    decodeFieldData f.id (encodeFieldData f.data) = f.data := by
  unfold fieldWF at h
  rcases hd : f.data with v | s | b <;> rw [hd] at h <;>
    simp only [Bool.and_eq_true, decide_eq_true_eq, Bool.not_eq_true'] at h
  · obtain ⟨⟨hint, hlo⟩, hhi⟩ := h
    simp only [encodeFieldData]
    by_cases hr : -(2 ^ 15) ≤ v ∧ v ≤ 2 ^ 15 - 1
    · rw [if_pos hr]
      simp only [putI16, putU16]
      rw [decodeFieldData_int2 f.id hint]
      congr 1
      unfold sext16 getU16
      split <;> omega
    · rw [if_neg hr]
      simp only [putI32, putU32]
      rw [decodeFieldData_int4 f.id hint]
      congr 1
      unfold sext32 getU32
      split <;> omega
  · obtain ⟨⟨hstr, hok⟩, _⟩ := h
    show decodeFieldData f.id s = FieldData.str s
    rw [decodeFieldData_strId f.id hstr, if_pos hok]
  · obtain ⟨⟨hint, hstr⟩, _⟩ := h
    show decodeFieldData f.id b = FieldData.binary b
    exact decodeFieldData_binId f.id hint hstr b

theorem decodeFieldsLoop_encode (fs : List Field)
    (hwf : ∀ f ∈ fs, fieldWF f = true) :
    decodeFieldsLoop fs.length (fs.map encodeField).flatten = .ok fs := by
  induction fs with
  | nil => simp [decodeFieldsLoop]
  | cons f rest ih =>
    have hf := hwf f (by simp)
    have hrest : ∀ g ∈ rest, fieldWF g = true := fun g hg => hwf g (by simp [hg])
    have hdlen := encodeFieldData_length_lt f hf
    have hshape :
        ((f :: rest).map encodeField).flatten =
          (f.id.toU16 / 2 ^ 8 % 2 ^ 8) :: (f.id.toU16 % 2 ^ 8) ::
            ((encodeFieldData f.data).length / 2 ^ 8 % 2 ^ 8) ::
            ((encodeFieldData f.data).length % 2 ^ 8) ::
            (encodeFieldData f.data ++ (rest.map encodeField).flatten) := by
      simp [encodeField, putU16]
    rw [List.length_cons, hshape]
    unfold decodeFieldsLoop
    rw [getU16_split _ hdlen, getU16_split _ (fieldId_toU16_lt f.id)]
    rw [if_neg (by simp)]
    simp only [fieldId_fromU16_toU16, List.drop_left, List.take_left, ih hrest,
      decodeFieldData_encode f hf]

theorem decodeFields_encodeFields (fs : List Field) (hcount : fs.length < 2 ^ 16)
    (hwf : ∀ f ∈ fs, fieldWF f = true) :
    decodeFields (encodeFields fs) = .ok fs := by
  have hshape :
      encodeFields fs =
        (fs.length / 2 ^ 8 % 2 ^ 8) :: (fs.length % 2 ^ 8) ::
          (fs.map encodeField).flatten := by
    simp [encodeFields, putU16]
  rw [hshape]
  show decodeFieldsLoop (getU16 (fs.length / 2 ^ 8 % 2 ^ 8) (fs.length % 2 ^ 8))
      (fs.map encodeField).flatten = .ok fs
  rw [getU16_split fs.length hcount]
  exact decodeFieldsLoop_encode fs hwf

/-- A transaction whose single field carries a String value on the
Data id (whose decode policy is Binary). -/
def txStrOnData : Transaction :=
  ⟨0, false, .login, 1, 0, 0, 0, [⟨.data, .str [97]⟩]⟩

/-- C6 counterexample: a well-formed transaction carrying a String
value on field id Data does not round-trip: the decoder returns the
same bytes as a Binary value, so the field does not come back with an
equal value. -/
theorem tx_roundtrip_counterexample :
    decodeTransaction (encodeTransaction txStrOnData) =
        .frame ⟨0, false, .login, 1, 0, 7, 7, [⟨.data, .binary [97]⟩]⟩ [] ∧
      txStrOnData.fields = [⟨.data, .str [97]⟩] ∧
      ([⟨.data, .binary [97]⟩] : List Field) ≠ [⟨.data, .str [97]⟩] := by
  refine ⟨by decide, rfl, by decide⟩

/-- C6 (amended): `decode(encode(T)) = T` (with `total_size` and
`data_size` set to the encoded payload length, the header attributes
flags, is_reply, type, id, error_code unchanged, and every field back
with the same id and equal value) holds for every well-formed T whose
fields match the per-id decode policy: Integer values on
integer-policy ids, UTF-8 String values on string-policy ids, Binary
values on all other ids; an Integer round-trips exactly, through its
smallest signed representation. It does not hold for arbitrary
id/value combinations. -/
theorem tx_roundtrip (t : Transaction) (hid : t.id < 2 ^ 32)
    (hec : t.errorCode < 2 ^ 32) (hcount : t.fields.length < 2 ^ 16)
    (hsize : (encodeFields t.fields).length ≤ 32768)
    (hwf : ∀ f ∈ t.fields, fieldWF f = true) :
    decodeTransaction (encodeTransaction t) =
      .frame
        { t with totalSize := (encodeFields t.fields).length
                 dataSize := (encodeFields t.fields).length } [] := by
  have hfb : (encodeFields t.fields).length % 2 ^ 32 = (encodeFields t.fields).length :=
    Nat.mod_eq_of_lt (by omega)
  have hfbpos : 0 < (encodeFields t.fields).length := by
    simp [encodeFields, putU16]
  have hshape :
      encodeTransaction t =
        t.flags :: (if t.isReply then 1 else 0) ::
          (t.ty.toU16 / 2 ^ 8 % 2 ^ 8) :: (t.ty.toU16 % 2 ^ 8) ::
          (t.id / 2 ^ 24 % 2 ^ 8) :: (t.id / 2 ^ 16 % 2 ^ 8) ::
          (t.id / 2 ^ 8 % 2 ^ 8) :: (t.id % 2 ^ 8) ::
          (t.errorCode / 2 ^ 24 % 2 ^ 8) :: (t.errorCode / 2 ^ 16 % 2 ^ 8) ::
          (t.errorCode / 2 ^ 8 % 2 ^ 8) :: (t.errorCode % 2 ^ 8) ::
          ((encodeFields t.fields).length / 2 ^ 24 % 2 ^ 8) ::
          ((encodeFields t.fields).length / 2 ^ 16 % 2 ^ 8) ::
          ((encodeFields t.fields).length / 2 ^ 8 % 2 ^ 8) ::
          ((encodeFields t.fields).length % 2 ^ 8) ::
          ((encodeFields t.fields).length / 2 ^ 24 % 2 ^ 8) ::
          ((encodeFields t.fields).length / 2 ^ 16 % 2 ^ 8) ::
          ((encodeFields t.fields).length / 2 ^ 8 % 2 ^ 8) ::
          ((encodeFields t.fields).length % 2 ^ 8) ::
          encodeFields t.fields := by
    simp only [encodeTransaction, putU16, putU32, List.cons_append, List.nil_append,
      List.cons.injEq, and_true, true_and]
    omega
  rw [hshape]
  unfold decodeTransaction decodeTx
  simp only [parseHeader, List.length_cons]
  rw [getU32_split (encodeFields t.fields).length (by omega)]
  rw [if_neg (by omega), if_neg (by omega), if_neg (by simp [maxTransactionSize]; omega)]
  rw [getU16_split t.ty.toU16 (txType_toU16_lt t.ty), txType_fromU16_toU16]
  have hdrop :
      List.drop 20
        (t.flags :: (if t.isReply then 1 else 0) ::
          (t.ty.toU16 / 2 ^ 8 % 2 ^ 8) :: (t.ty.toU16 % 2 ^ 8) ::
          (t.id / 2 ^ 24 % 2 ^ 8) :: (t.id / 2 ^ 16 % 2 ^ 8) ::
          (t.id / 2 ^ 8 % 2 ^ 8) :: (t.id % 2 ^ 8) ::
          (t.errorCode / 2 ^ 24 % 2 ^ 8) :: (t.errorCode / 2 ^ 16 % 2 ^ 8) ::
          (t.errorCode / 2 ^ 8 % 2 ^ 8) :: (t.errorCode % 2 ^ 8) ::
          ((encodeFields t.fields).length / 2 ^ 24 % 2 ^ 8) ::
          ((encodeFields t.fields).length / 2 ^ 16 % 2 ^ 8) ::
          ((encodeFields t.fields).length / 2 ^ 8 % 2 ^ 8) ::
          ((encodeFields t.fields).length % 2 ^ 8) ::
          ((encodeFields t.fields).length / 2 ^ 24 % 2 ^ 8) ::
          ((encodeFields t.fields).length / 2 ^ 16 % 2 ^ 8) ::
          ((encodeFields t.fields).length / 2 ^ 8 % 2 ^ 8) ::
          ((encodeFields t.fields).length % 2 ^ 8) ::
          encodeFields t.fields) = encodeFields t.fields := rfl
  rw [hdrop, if_pos hfbpos, List.take_length, List.drop_length]
  rw [decodeFields_encodeFields t.fields hcount hwf]
  simp only [getU32_split t.id hid, getU32_split t.errorCode hec]
  cases hr : t.isReply <;> rfl

/-- A policy-conforming transaction exercising all three field kinds,
with a 2-byte and a 4-byte integer. -/
def txGood : Transaction :=
  ⟨0, false, .login, 1, 0, 0, 0,
    [⟨.userId, .integer 5⟩, ⟨.userName, .str [65, 66]⟩,
     ⟨.data, .binary [1, 2, 3]⟩, ⟨.userId, .integer (-40000)⟩]⟩

/-- C6 witness: the round trip evaluated on `txGood` (whose encoded
fields occupy 29 bytes). -/
theorem tx_roundtrip_witness :
    txGood.id < 2 ^ 32 ∧ txGood.errorCode < 2 ^ 32 ∧ txGood.fields.length < 2 ^ 16 ∧
      (encodeFields txGood.fields).length ≤ 32768 ∧
      (∀ f ∈ txGood.fields, fieldWF f = true) ∧
      decodeTransaction (encodeTransaction txGood) =
        .frame
          { txGood with totalSize := (encodeFields txGood.fields).length
                        dataSize := (encodeFields txGood.fields).length } [] :=
  ⟨by decide, by decide, by decide, by decide, by decide,
    tx_roundtrip txGood (by decide) (by decide) (by decide) (by decide) (by decide)⟩

end Rhxd
